import Mathlib

/-!
Shallow embedding of the GithubIssue operator
(matanamar10/github-issue-operator-home-assignment) in Lean 4, with
theorems checking the natural-language specification against the code.

The Go sources embed machine-checked here:
  * `internal/git/git.go`            — the `Issue` projection of a remote issue,
  * `internal/controller/issues.go`  — matcher, condition diff engine, status
    writer, fetch-with-retry, URL parser, and the reconcile handlers,
  * `internal/controller/repo.go`    — `parseRepoURL` and the historical
    `updateIssueStatus` variant without the fallback write,
  * `internal/finalizer/finalizer.go` — finalizer `Cleanup`.

Go mutation of the CRD object becomes explicit state passing (each function
returns the updated object); calls to the Kubernetes client become an explicit
`StoreBehavior` oracle plus a trace of the calls performed; fallible code
returns `Except`/`Option`.
-/

namespace GithubIssueOperator

/-- Projection of a remote tracker issue (`internal/git/git.go`, `type Issue`).
For the `github.Issue` variant of the controller the same structure serves:
`state` models `GetState()`, `hasPR` models `GetPullRequestLinks() != nil`,
`title` the dereferenced `*Title`. -/
structure Issue where
  number : Int
  title : String
  description : String
  state : String
  hasPR : Bool
  url : String
deriving DecidableEq, Repr

/-- `metav1.ConditionStatus` is a string type in the Go API
(`"True" | "False" | "Unknown"`, with `""` possible as a zero value). -/
abbrev ConditionStatus := String

/-- `metav1.ConditionTrue`. -/
def ConditionTrue : ConditionStatus := "True"

/-- `metav1.ConditionFalse`. -/
def ConditionFalse : ConditionStatus := "False"

/-- `metav1.Condition` restricted to the fields the operator reads and writes
(the source never reads `LastTransitionTime` or `ObservedGeneration`). -/
structure Condition where
  ctype : String
  status : ConditionStatus
  reason : String
  message : String
deriving DecidableEq, Repr

/-- `GithubIssueSpec` (`api/v1alpha1/githubissue_types.go`). -/
structure GithubIssueSpec where
  repo : String
  title : String
  description : String
deriving DecidableEq, Repr

/-- `GithubIssueStatus` (`api/v1alpha1/githubissue_types.go`). -/
structure GithubIssueStatus where
  conditions : List Condition
deriving DecidableEq, Repr

/-- The `GithubIssue` CRD object: spec, status, and the metadata the operator
touches (finalizer list, deletion timestamp as a request flag). -/
structure GithubIssue where
  spec : GithubIssueSpec
  status : GithubIssueStatus
  finalizers : List String
  deletionRequested : Bool
deriving DecidableEq, Repr

/-- `meta.IsStatusConditionPresentAndEqual` (k8s.io/apimachinery): walks the
condition list, and at the first condition of the given type reports whether
its status equals the given status; `false` when the type is absent. -/
def IsStatusConditionPresentAndEqual :
    List Condition → String → ConditionStatus → Bool
  | [], _, _ => false
  | c :: rest, t, s =>
    if c.ctype = t then decide (c.status = s)
    else IsStatusConditionPresentAndEqual rest t s

/-- `meta.SetStatusCondition` (k8s.io/apimachinery): appends the condition when
no condition of its type exists, otherwise overwrites the status, reason and
message of the first condition of that type in place. -/
def SetStatusCondition : List Condition → Condition → List Condition
  | [], newC => [newC]
  | c :: rest, newC =>
    if c.ctype = newC.ctype then
      { c with status := newC.status, reason := newC.reason,
               message := newC.message } :: rest
    else c :: SetStatusCondition rest newC

/-- `searchForIssue` over generic `git.Issue` values
(`internal/controller/issues.go`, first variant): first non-nil entry whose
title equals the desired title under Go `==` (case-sensitive). `nil` slice
entries are `none`. -/
def searchForIssue (issueTitle : String) :
    List (Option Issue) → Option Issue
  | [] => none
  | platformIssue :: rest =>
    match platformIssue with
    | some p => if p.title = issueTitle then some p
                else searchForIssue issueTitle rest
    | none => searchForIssue issueTitle rest

/-- `strings.EqualFold` modelled by case-folded equality (faithful on the
ASCII titles the operator handles). -/
def eqFold (a b : String) : Bool :=
  decide (a.data.map Char.toLower = b.data.map Char.toLower)

/-- `searchForIssue` over `github.Issue` values
(`internal/controller/issues.go`, second variant): first non-nil entry whose
title satisfies `strings.EqualFold(*ghIssue.Title, issue.Spec.Title)`. Renamed
`searchForIssueEqualFold` because the two source variants share one name. -/
def searchForIssueEqualFold (issue : GithubIssue) :
    List (Option Issue) → Option Issue
  | [] => none
  | ghIssue :: rest =>
    match ghIssue with
    | some gh => if eqFold gh.title issue.spec.title then some gh
                 else searchForIssueEqualFold issue rest
    | none => searchForIssueEqualFold issue rest

/-- Splits a character list at every `/`, keeping empty segments: the
character-level behaviour of Go `strings.Split(s, "/")`. -/
def splitSlashAux : List Char → List Char → List String
  | [], acc => [String.mk acc.reverse]
  | c :: rest, acc =>
    if c = '/' then String.mk acc.reverse :: splitSlashAux rest []
    else splitSlashAux rest (c :: acc)

/-- Go `strings.Split(s, "/")`. -/
def splitSlash (s : String) : List String := splitSlashAux s.data []

/-- `ParseRepoURL` (`internal/controller/issues.go`; identical lowercase
`parseRepoURL` in `internal/controller/repo.go`): split on `/`, require at
least 5 segments, return segments 3 and 4. -/
def ParseRepoURL (repoURL : String) : Except String (String × String) :=
  let parts := splitSlash repoURL
  if parts.length < 5 then
    Except.error ("invalid repository URL: " ++ repoURL)
  else
    Except.ok (parts.getD 3 "", parts.getD 4 "")

/-- `updateCondition` (`internal/controller/issues.go`, first variant): builds
the condition and rewrites it on the object only when no condition of the type
is present with the same status; returns the updated object and whether it
rewrote. Go mutates `issueObject`; here the updated object is returned. -/
def updateCondition (issueObject : GithubIssue) (conditionType : String)
    (conditionStatus : ConditionStatus) (reason message : String) :
    GithubIssue × Bool :=
  let condition : Condition :=
    ⟨conditionType, conditionStatus, reason, message⟩
  if ¬ (IsStatusConditionPresentAndEqual issueObject.status.conditions
        conditionType condition.status = true) then
    ({ issueObject with
        status := ⟨SetStatusCondition issueObject.status.conditions condition⟩ },
      true)
  else
    (issueObject, false)

/-- `checkIfOpen` (`internal/controller/issues.go`, first variant): returns
`(conditionType, conditionStatus, reason, message, ok)`; all-empty with
`ok = false` for a nil issue. -/
def checkIfOpen (platformIssue : Option Issue) :
    String × ConditionStatus × String × String × Bool :=
  match platformIssue with
  | none => ("", "", "", "", false)
  | some issue =>
    let state := issue.state
    if state ≠ "open" then
      ("IssueIsOpen", ConditionFalse, "IssueIs" ++ state,
        "Issue is " ++ state, true)
    else
      ("IssueIsOpen", ConditionTrue, "IssueIsOpen", "Issue is open", true)

/-- `checkForPR` (`internal/controller/issues.go`, first variant): returns
`(conditionType, conditionStatus, reason, message, ok)`. -/
def checkForPR (platformIssue : Option Issue) :
    String × ConditionStatus × String × String × Bool :=
  match platformIssue with
  | none => ("", "", "", "", false)
  | some issue =>
    if issue.hasPR then
      ("IssueHasPR", ConditionTrue, "IssueHasPR",
        "Issue has an associated PR", true)
    else
      ("IssueHasPR", ConditionFalse, "IssueHasNoPR", "Issue has no PR", true)

/-- `CheckIfOpen` (`internal/controller/issues.go`, second variant): computes
the `IssueIsOpen` condition from the remote state and applies it to the object
when its status differs from the stored one; returns the updated object and
the changed flag. -/
def CheckIfOpen (githubIssue : Option Issue) (issueObject : GithubIssue) :
    GithubIssue × Bool :=
  match githubIssue with
  | none => (issueObject, false)
  | some gh =>
    let state := gh.state
    let condition : Condition :=
      if state ≠ "open" then
        ⟨"IssueIsOpen", ConditionFalse, "IssueIs" ++ state,
          "Issue is " ++ state⟩
      else
        ⟨"IssueIsOpen", ConditionTrue, "IssueIsOpen", "Issue is open"⟩
    if ¬ (IsStatusConditionPresentAndEqual issueObject.status.conditions
          "IssueIsOpen" condition.status = true) then
      ({ issueObject with
          status := ⟨SetStatusCondition issueObject.status.conditions condition⟩ },
        true)
    else
      (issueObject, false)

/-- `CheckForPR` (`internal/controller/issues.go`, second variant): computes
the `IssueHasPR` condition (`GetPullRequestLinks() != nil` is `hasPR`) and
applies it to the object when its status differs from the stored one. -/
def CheckForPR (githubIssue : Option Issue) (issueObject : GithubIssue) :
    GithubIssue × Bool :=
  match githubIssue with
  | none => (issueObject, false)
  | some gh =>
    let condition : Condition :=
      if gh.hasPR then
        ⟨"IssueHasPR", ConditionTrue, "IssueHasPR", "Issue has an open PR"⟩
      else
        ⟨"IssueHasPR", ConditionFalse, "IssueHasNoPR", "Issue has no PR"⟩
    if ¬ (IsStatusConditionPresentAndEqual issueObject.status.conditions
          "IssueHasPR" condition.status = true) then
      ({ issueObject with
          status := ⟨SetStatusCondition issueObject.status.conditions condition⟩ },
        true)
    else
      (issueObject, false)

/-- Outcome oracle for the Kubernetes client writes a reconcile pass may
perform: whether `Status().Update` fails and whether the full-object
`Update` fallback fails. -/
structure StoreBehavior where
  statusUpdateFails : Bool
  fullUpdateFails : Bool
deriving DecidableEq, Repr

/-- Count of store write calls a status update performed. -/
structure StatusWriteTrace where
  statusUpdateCalls : Nat
  fallbackCalls : Nat
deriving DecidableEq, Repr

/-- `UpdateIssueStatus` (`internal/controller/issues.go`, second variant):
applies `CheckForPR` then `CheckIfOpen`; when either changed it writes the
status, retrying once through a full-object `Update` if the status write
fails, and fails the pass only when the fallback fails too. Returns the
updated object, the write trace, and the error. -/
def UpdateIssueStatus (beh : StoreBehavior) (issue : GithubIssue)
    (githubIssue : Option Issue) :
    GithubIssue × StatusWriteTrace × Option String :=
  let pr := CheckForPR githubIssue issue
  let opn := CheckIfOpen githubIssue pr.1
  let PRChange := pr.2
  let OpenChange := opn.2
  if PRChange || OpenChange then
    if beh.statusUpdateFails then
      if beh.fullUpdateFails then
        (opn.1, ⟨1, 1⟩, some "failed to update status")
      else
        (opn.1, ⟨1, 1⟩, none)
    else
      (opn.1, ⟨1, 0⟩, none)
  else
    (opn.1, ⟨0, 0⟩, none)

/-- `checkIfOpen` (`src/unnamed/part_000` variant): returns the computed
`IssueIsOpen` condition and an ok flag, `(nil, false)` for a nil issue.
Renamed `checkIfOpenCond` because the tuple variant already uses the name. -/
def checkIfOpenCond (platformIssue : Option Issue) : Option Condition × Bool :=
  match platformIssue with
  | none => (none, false)
  | some issue =>
    let state := issue.state
    if state ≠ "open" then
      (some ⟨"IssueIsOpen", ConditionFalse, "IssueIs" ++ state,
        "Issue is " ++ state⟩, true)
    else
      (some ⟨"IssueIsOpen", ConditionTrue, "IssueIsOpen", "Issue is open"⟩,
        true)

/-- `checkForPR` (`src/unnamed/part_000` variant): computes the `IssueHasPR`
condition and applies it to the object when its status differs. Renamed
`checkForPRApply` because the tuple variant already uses the name. -/
def checkForPRApply (platformIssue : Option Issue)
    (issueObject : GithubIssue) : GithubIssue × Bool :=
  match platformIssue with
  | none => (issueObject, false)
  | some issue =>
    let condition : Condition :=
      if issue.hasPR then
        ⟨"IssueHasPR", ConditionTrue, "IssueHasPR",
          "Issue has an associated PR"⟩
      else
        ⟨"IssueHasPR", ConditionFalse, "IssueHasNoPR", "Issue has no PR"⟩
    if ¬ (IsStatusConditionPresentAndEqual issueObject.status.conditions
          "IssueHasPR" condition.status = true) then
      ({ issueObject with
          status := ⟨SetStatusCondition issueObject.status.conditions condition⟩ },
        true)
    else
      (issueObject, false)

/-- `updateIssueCondition` (`src/unnamed/part_000`): rewrites the condition on
the object when no `IssueIsOpen` condition with the same status is present. -/
def updateIssueCondition (issueObject : GithubIssue) (condition : Condition) :
    GithubIssue × Bool :=
  if ¬ (IsStatusConditionPresentAndEqual issueObject.status.conditions
        "IssueIsOpen" condition.status = true) then
    ({ issueObject with
        status := ⟨SetStatusCondition issueObject.status.conditions condition⟩ },
      true)
  else
    (issueObject, false)

/-- `updateIssueStatus` (`internal/controller/repo.go` variant): applies
`checkForPR` then computes `checkIfOpen`; gated on either flag it rewrites the
open condition through `updateIssueCondition` and, when that rewrote, performs
the status write with NO fallback — a failure is surfaced immediately.
The `none` branch of the computed condition is unreachable: `checkIfOpenCond`
yields `none` only for a nil issue, which forces both change flags false. -/
def updateIssueStatusRepo (beh : StoreBehavior) (issue : GithubIssue)
    (platformIssue : Option Issue) :
    GithubIssue × StatusWriteTrace × Option String :=
  let pr := checkForPRApply platformIssue issue
  let chk := checkIfOpenCond platformIssue
  if pr.2 || chk.2 then
    match chk.1 with
    | some condition =>
      let upd := updateIssueCondition pr.1 condition
      if upd.2 then
        if beh.statusUpdateFails then
          (upd.1, ⟨1, 0⟩, some "failed to update status")
        else
          (upd.1, ⟨1, 0⟩, none)
      else
        (upd.1, ⟨0, 0⟩, none)
    | none => (pr.1, ⟨0, 0⟩, none)
  else
    (pr.1, ⟨0, 0⟩, none)

/-- Result of `IssueClient.List`: a slice of issue pointers (nil entries are
`none`) or an error. -/
abbrev IssueList := List (Option Issue)

/-- Loop body of `fetchAllIssues` (`internal/controller/issues.go`, explicit
retry loop, `maxRetries = 5`, `baseDelay` = 1 time unit): `client k` is the
outcome of the k-th `List` call. `fetchFrom client attempt fuel` runs attempts
`attempt, attempt+1, ...` with `fuel` attempts remaining, and returns the
result, the number of `List` calls made, and the backoff delays slept
(`baseDelay * 2^(attempt-1)` after each failed non-final attempt). -/
def fetchFrom (client : Nat → Except String IssueList) :
    Nat → Nat → Except String IssueList × Nat × List Nat
  | _, 0 => (Except.error "exceeded retries fetching issues", 0, [])
  | attempt, fuel + 1 =>
    match client attempt with
    | Except.ok allIssues => (Except.ok allIssues, 1, [])
    | Except.error _ =>
      if fuel = 0 then
        (Except.error "exceeded retries fetching issues", 1, [])
      else
        let backoffDelay := 2 ^ (attempt - 1)
        let rest := fetchFrom client (attempt + 1) fuel
        (rest.1, rest.2.1 + 1, backoffDelay :: rest.2.2)

/-- `fetchAllIssues` (`internal/controller/issues.go`): at most 5 attempts
starting from attempt 1. -/
def fetchAllIssues (client : Nat → Except String IssueList) :
    Except String IssueList × Nat × List Nat :=
  fetchFrom client 1 5

/-- `FindIssue` (`internal/controller/issues.go`, second variant): fetch all
issues with retry, then match by title. -/
def FindIssue (client : Nat → Except String IssueList)
    (issue : GithubIssue) : Except String (Option Issue) :=
  match (fetchAllIssues client).1 with
  | Except.error e => Except.error ("error fetching issues: " ++ e)
  | Except.ok allIssues => Except.ok (searchForIssueEqualFold issue allIssues)

/-- `issueExists` (`internal/controller/issues.go`). -/
def issueExists (issue : Option Issue) : Bool := issue.isSome

/-- The fixed finalizer token (`internal/finalizer/finalizer.go`). -/
def closeIssueFinalizer : String := "issues.dana.io/finalizer"

/-- `controllerutil.RemoveFinalizer`: removes every occurrence of the token
from the object's finalizer list. -/
def removeFinalizer (obj : GithubIssue) : GithubIssue :=
  { obj with finalizers := obj.finalizers.filter (· ≠ closeIssueFinalizer) }

/-- Remote and store calls a deletion pass performs, in order. -/
inductive RemoteEvent where
  | closeCall (number : Int)
  | finalizerUpdate
deriving DecidableEq, Repr

/-- Outcome oracle for a deletion pass: result of the remote `Close` call and
of the store `Update` that persists the finalizer removal (`none` means the
call succeeds). -/
structure DeletionBehavior where
  closeErr : Option String
  removeUpdateErr : Option String
deriving DecidableEq, Repr

/-- `CloseIssue` (`internal/controller/issues.go`): nil guard, then the remote
`Close` call. Returns the error and the remote calls made. -/
def CloseIssue (closeErr : Option String) (gitHubIssue : Option Issue) :
    Option String × List RemoteEvent :=
  match gitHubIssue with
  | none => (some "cannot close issue: issue is nil", [])
  | some gh =>
    match closeErr with
    | some e => (some ("failed to close issue: " ++ e),
        [RemoteEvent.closeCall gh.number])
    | none => (none, [RemoteEvent.closeCall gh.number])

/-- `finalizer.Cleanup` (`internal/finalizer/finalizer.go`): removes the token
from the in-memory object, then persists via `Update`. Takes the store's
durable copy and the in-memory object; returns the in-memory object, the
durable copy (changed only on a successful `Update`), and the error. -/
def Cleanup (removeUpdateErr : Option String)
    (persisted obj : GithubIssue) : GithubIssue × GithubIssue × Option String :=
  let objRemoved := removeFinalizer obj
  match removeUpdateErr with
  | some e => (objRemoved, persisted, some ("failed to remove finalizer: " ++ e))
  | none => (objRemoved, objRemoved, none)

/-- `handleDeletion` (`internal/controller/issues.go`, second variant): guard
on a missing counterpart, `CloseIssue`, then `finalizer.Cleanup`. The store's
durable copy of the object starts out equal to the fetched `issueObject`.
Returns `(in-memory object, durable object, returned error, events)`. -/
def handleDeletion (beh : DeletionBehavior) (issue : Option Issue)
    (issueObject : GithubIssue) :
    GithubIssue × GithubIssue × Option String × List RemoteEvent :=
  if ¬ (issueExists issue = true) then
    (issueObject, issueObject, some "cannot close issue: issue is nil", [])
  else
    let cls := CloseIssue beh.closeErr issue
    match cls.1 with
    | some e =>
      (issueObject, issueObject, some ("failed closing issue: " ++ e), cls.2)
    | none =>
      let cln := Cleanup beh.removeUpdateErr issueObject issueObject
      (cln.1, cln.2.1, cln.2.2, cls.2 ++ [RemoteEvent.finalizerUpdate])

/-- Outcome oracle for a non-deletion pass: results of the remote `Create` and
`Edit` calls, the `List` outcomes used by the re-fetch, and the status-write
behaviour. -/
structure MutationBehavior where
  createErr : Option String
  editErr : Option String
  client : Nat → Except String IssueList
  store : StoreBehavior

/-- `CreateIssue` (`internal/controller/issues.go`, second variant): only its
error behaviour is relevant to the local object. -/
def CreateIssue (createErr : Option String) : Option String :=
  createErr.map (fun e => "failed to create issue: " ++ e)

/-- `EditIssue` (`internal/controller/issues.go`, second variant): edits the
issue with the given number; only its error behaviour is relevant to the
local object. -/
def EditIssue (editErr : Option String) (issueNumber : Int) : Option String :=
  match issueNumber with
  | _ => editErr.map (fun e => "failed to edit issue: " ++ e)

/-- `handleNewIssue` (`internal/controller/issues.go`, second variant):
`CreateIssue`, re-fetch and match, then `UpdateIssueStatus` (whose error is
logged, not returned). Returns the updated object and the pass error. -/
def handleNewIssue (beh : MutationBehavior) (issueObject : GithubIssue) :
    GithubIssue × Option String :=
  match CreateIssue beh.createErr with
  | some e => (issueObject, some e)
  | none =>
    match FindIssue beh.client issueObject with
    | Except.error e => (issueObject, some e)
    | Except.ok issue =>
      if issueExists issue then
        let upd := UpdateIssueStatus beh.store issueObject issue
        (upd.1, none)
      else
        (issueObject, none)

/-- `handleUpdatedIssue` (`internal/controller/issues.go`, second variant):
`EditIssue` on the counterpart's number, re-fetch and match, then
`UpdateIssueStatus` (error logged, not returned). -/
def handleUpdatedIssue (beh : MutationBehavior) (issueObject : GithubIssue)
    (issue : Issue) : GithubIssue × Option String :=
  match EditIssue beh.editErr issue.number with
  | some e => (issueObject, some e)
  | none =>
    match FindIssue beh.client issueObject with
    | Except.error e => (issueObject, some e)
    | Except.ok updatedIssue =>
      if issueExists updatedIssue then
        let upd := UpdateIssueStatus beh.store issueObject updatedIssue
        (upd.1, none)
      else
        (issueObject, none)

/-! ### Concrete fixtures used by witnesses and counterexamples -/

/-- A remote issue titled "Issue 1" (spec §8 matcher scenario). -/
def issue1 : Issue :=
  ⟨1, "Issue 1", "D1", "open", false, "https://example.com/acme/app/issues/1"⟩

/-- A remote issue titled "Issue 2". -/
def issue2 : Issue :=
  ⟨2, "Issue 2", "D2", "open", false, "https://example.com/acme/app/issues/2"⟩

/-- A desired-issue spec asking for title "issue 1". -/
def sampleSpec : GithubIssueSpec :=
  ⟨"https://example.com/acme/app", "issue 1", "D1"⟩

/-- A fresh CRD object: no status conditions yet. -/
def emptyObj : GithubIssue := ⟨sampleSpec, ⟨[]⟩, [], false⟩

/-- A CRD object carrying the finalizer token and a deletion request. -/
def finalizedObj : GithubIssue :=
  ⟨sampleSpec, ⟨[]⟩, [closeIssueFinalizer], true⟩

/-! ### Helper lemmas on the condition collection -/

theorem isPresent_iff_find (conds : List Condition) (t : String)
    (s : ConditionStatus) :
    IsStatusConditionPresentAndEqual conds t s = true ↔
      ∃ c, conds.find? (fun x => decide (x.ctype = t)) = some c ∧
        c.status = s := by
  induction conds with
  | nil => simp [IsStatusConditionPresentAndEqual]
  | cons c rest ih =>
    by_cases h : c.ctype = t
    · simp [IsStatusConditionPresentAndEqual, List.find?, h]
    · simp [IsStatusConditionPresentAndEqual, List.find?, h, ih]

theorem isPresent_set_self (conds : List Condition) (c : Condition) :
    IsStatusConditionPresentAndEqual (SetStatusCondition conds c)
      c.ctype c.status = true := by
  induction conds with
  | nil => simp [SetStatusCondition, IsStatusConditionPresentAndEqual]
  | cons d rest ih =>
    by_cases h : d.ctype = c.ctype
    · simp [SetStatusCondition, IsStatusConditionPresentAndEqual, h]
    · simp [SetStatusCondition, IsStatusConditionPresentAndEqual, h, ih]

theorem isPresent_set_other (conds : List Condition) (c : Condition)
    (t : String) (s : ConditionStatus) (h : t ≠ c.ctype) :
    IsStatusConditionPresentAndEqual (SetStatusCondition conds c) t s =
      IsStatusConditionPresentAndEqual conds t s := by
  have hct : ¬ c.ctype = t := fun hh => h hh.symm
  induction conds with
  | nil =>
    simp only [SetStatusCondition, IsStatusConditionPresentAndEqual, if_neg hct]
  | cons d rest ih =>
    by_cases hd : d.ctype = c.ctype
    · have hdt : ¬ d.ctype = t := fun hh => hct (hd.symm.trans hh)
      simp only [SetStatusCondition, if_pos hd, IsStatusConditionPresentAndEqual]
      rw [if_neg hdt, if_neg hdt]
    · simp only [SetStatusCondition, if_neg hd, IsStatusConditionPresentAndEqual]
      by_cases hdt : d.ctype = t
      · rw [if_pos hdt, if_pos hdt]
      · rw [if_neg hdt, if_neg hdt, ih]

/-! ### C5 — repository reference parsing -/

/-- C5: splitting the reference on `/`, a string with at least 5 segments
parses to owner = segment 3 and repo = segment 4 with no error; fewer than 5
segments yield a parse error; `"https://example.com/acme/app"` parses to
owner `acme`, repo `app`. -/
theorem c5_parse_repo_url :
    (∀ s : String, 5 ≤ (splitSlash s).length →
      ParseRepoURL s =
        Except.ok ((splitSlash s).getD 3 "", (splitSlash s).getD 4 ""))
    ∧ (∀ s : String, (splitSlash s).length < 5 →
      ParseRepoURL s = Except.error ("invalid repository URL: " ++ s))
    ∧ ParseRepoURL "https://example.com/acme/app" = Except.ok ("acme", "app") := by
  refine ⟨?_, ?_, rfl⟩
  · intro s h
    simp [ParseRepoURL, Nat.not_lt.mpr h]
  · intro s h
    simp [ParseRepoURL, h]

/-- C5 witness: the example reference has 5 segments and parses through the
general theorem. -/
theorem c5_parse_repo_url_witness :
    ParseRepoURL "https://example.com/acme/app" =
      Except.ok ((splitSlash "https://example.com/acme/app").getD 3 "",
        (splitSlash "https://example.com/acme/app").getD 4 "") :=
  c5_parse_repo_url.1 "https://example.com/acme/app" (by decide)

/-! ### C3 — issue matcher -/

/-- C3 counterexample: the `git.Issue` variant of `searchForIssue`
(`internal/controller/issues.go` lines 13–20) compares titles with Go `==`,
so desired title "issue 1" does NOT match the remote issue titled "Issue 1":
the matcher is not case-insensitive there, contradicting the claim. -/
theorem c3_matcher_counterexample :
    searchForIssue "issue 1" [some issue1, some issue2] = none ∧
      issue1.title = "Issue 1" ∧ issue2.title = "Issue 2" := by
  decide

/-- C3 (amended): the `strings.EqualFold` variant of the matcher
(`internal/controller/issues.go` lines 139–146) returns the first non-nil
remote issue, in list order, whose title equals the desired title
case-insensitively, and `none` when no title matches; on remote issues titled
["Issue 1", "Issue 2"] and desired title "issue 1" it returns the issue
titled "Issue 1". The `git.Issue` variant (lines 13–20) behaves the same but
with case-sensitive equality. -/
theorem c3_matcher_equalfold :
    (∀ (obj : GithubIssue) (l : List (Option Issue)),
      searchForIssueEqualFold obj l =
        (l.filterMap id).find? (fun i => eqFold i.title obj.spec.title))
    ∧ searchForIssueEqualFold emptyObj [some issue1, some issue2] = some issue1
    ∧ (∀ (t : String) (l : List (Option Issue)),
      searchForIssue t l =
        (l.filterMap id).find? (fun i => decide (i.title = t))) := by
  refine ⟨?_, by decide, ?_⟩
  · intro obj l
    induction l with
    | nil => simp [searchForIssueEqualFold]
    | cons x rest ih =>
      cases x with
      | none => simpa [searchForIssueEqualFold] using ih
      | some gh =>
        by_cases h : eqFold gh.title obj.spec.title = true
        · simp [searchForIssueEqualFold, h, List.find?]
        · simp [searchForIssueEqualFold, h, List.find?, ih]
  · intro t l
    induction l with
    | nil => simp [searchForIssue]
    | cons x rest ih =>
      cases x with
      | none => simpa [searchForIssue] using ih
      | some p =>
        by_cases h : p.title = t
        · simp [searchForIssue, h, List.find?]
        · simp [searchForIssue, h, List.find?, ih]

/-! ### C9 — matcher nil safety -/

/-- C9: the matcher skips nil entries: a list of only nil entries (or the
empty list) yields `none`, and any returned issue is a non-nil element of the
supplied list whose title matches, so a nil entry is never returned. -/
theorem c9_matcher_nil_entries :
    (∀ (t : String) (l : List (Option Issue)),
      (∀ x ∈ l, x = none) → searchForIssue t l = none)
    ∧ (∀ (t : String) (l : List (Option Issue)) (i : Issue),
      searchForIssue t l = some i → some i ∈ l ∧ i.title = t)
    ∧ searchForIssue "Issue 1" ([] : List (Option Issue)) = none
    ∧ searchForIssue "Issue 1" [none, none, none] = none := by
  refine ⟨?_, ?_, by decide, by decide⟩
  · intro t l h
    induction l with
    | nil => simp [searchForIssue]
    | cons x rest ih =>
      have hx : x = none := h x (List.mem_cons_self x rest)
      subst hx
      exact ih fun y hy => h y (List.mem_cons_of_mem _ hy)
  · intro t l i h
    induction l with
    | nil => simp [searchForIssue] at h
    | cons x rest ih =>
      cases x with
      | none =>
        rcases ih (by simpa [searchForIssue] using h) with ⟨hmem, hti⟩
        exact ⟨List.mem_cons_of_mem _ hmem, hti⟩
      | some p =>
        by_cases hp : p.title = t
        · have : p = i := by
            simpa [searchForIssue, hp] using h
          subst this
          exact ⟨List.mem_cons_self _ _, hp⟩
        · rcases ih (by simpa [searchForIssue, hp] using h) with ⟨hmem, hti⟩
          exact ⟨List.mem_cons_of_mem _ hmem, hti⟩

/-- C9 witness: concrete instantiations of both universally quantified
parts. -/
theorem c9_matcher_nil_entries_witness :
    searchForIssue "Issue 1" [none, none] = none ∧
      (some issue1 ∈ [some issue1] ∧ issue1.title = "Issue 1") :=
  ⟨c9_matcher_nil_entries.1 "Issue 1" [none, none] (by decide),
    c9_matcher_nil_entries.2.1 "Issue 1" [some issue1] issue1 (by decide)⟩

/-! ### C6 — computed conditions -/

/-- C6: for every non-nil remote issue, the computed `IssueIsOpen` condition
is True / reason `IssueIsOpen` / message "Issue is open" exactly when the
state is "open" and otherwise False / `IssueIs<state>` / "Issue is <state>";
the computed `IssueHasPR` condition is True / reason `IssueHasPR` when a pull
request is linked and otherwise False / `IssueHasNoPR`. The last conjunct
shows the method variant `CheckIfOpen` stores exactly that condition on a
fresh object. -/
theorem c6_computed_conditions :
    (∀ i : Issue,
      checkIfOpen (some i) =
        ("IssueIsOpen",
          if i.state = "open" then ConditionTrue else ConditionFalse,
          if i.state = "open" then "IssueIsOpen" else "IssueIs" ++ i.state,
          if i.state = "open" then "Issue is open" else "Issue is " ++ i.state,
          true))
    ∧ (∀ i : Issue,
      checkForPR (some i) =
        ("IssueHasPR",
          if i.hasPR then ConditionTrue else ConditionFalse,
          if i.hasPR then "IssueHasPR" else "IssueHasNoPR",
          if i.hasPR then "Issue has an associated PR" else "Issue has no PR",
          true))
    ∧ (∀ (i : Issue) (obj : GithubIssue), obj.status.conditions = [] →
      ((CheckIfOpen (some i) obj).1).status.conditions =
        [⟨"IssueIsOpen",
          if i.state = "open" then ConditionTrue else ConditionFalse,
          if i.state = "open" then "IssueIsOpen" else "IssueIs" ++ i.state,
          if i.state = "open" then "Issue is open" else "Issue is " ++ i.state⟩]) := by
  refine ⟨?_, ?_, ?_⟩
  · intro i
    by_cases h : i.state = "open" <;> simp [checkIfOpen, h]
  · intro i
    by_cases h : i.hasPR <;> simp [checkForPR, h]
  · intro i obj hc
    by_cases h : i.state = "open" <;>
      simp [CheckIfOpen, h, hc, IsStatusConditionPresentAndEqual,
        SetStatusCondition, ConditionTrue, ConditionFalse]

/-- C6 witness: the third conjunct applied to a concrete open issue and the
fresh object. -/
theorem c6_computed_conditions_witness :
    ((CheckIfOpen (some issue1) emptyObj).1).status.conditions =
      [⟨"IssueIsOpen",
        if issue1.state = "open" then ConditionTrue else ConditionFalse,
        if issue1.state = "open" then "IssueIsOpen" else "IssueIs" ++ issue1.state,
        if issue1.state = "open" then "Issue is open"
        else "Issue is " ++ issue1.state⟩] :=
  c6_computed_conditions.2.2 issue1 emptyObj (by decide)

/-! ### C7 — deletion requires a counterpart -/

/-- C7 counterexample: with no matching remote counterpart the deletion pass
does return an error without calling Close, but the error is
"cannot close issue: issue is nil", not the "cannot close: issue not found"
the claim quotes. -/
theorem c7_deletion_counterexample :
    (handleDeletion ⟨none, none⟩ none finalizedObj).2.2.1 =
        some "cannot close issue: issue is nil"
      ∧ (handleDeletion ⟨none, none⟩ none finalizedObj).2.2.2 = []
      ∧ "cannot close issue: issue is nil" ≠ "cannot close: issue not found" := by
  decide

/-- C7 (amended): when deletion is requested and no counterpart is found, the
pass returns the error "cannot close issue: issue is nil" without any remote
Close call and without touching the object; when a counterpart exists, Close
is called with that counterpart's number. -/
theorem c7_deletion_requires_counterpart :
    (∀ (beh : DeletionBehavior) (obj : GithubIssue),
      handleDeletion beh none obj =
        (obj, obj, some "cannot close issue: issue is nil", []))
    ∧ (∀ (beh : DeletionBehavior) (obj : GithubIssue) (i : Issue),
      RemoteEvent.closeCall i.number ∈ (handleDeletion beh (some i) obj).2.2.2) := by
  constructor
  · intro beh obj
    simp [handleDeletion, issueExists]
  · intro beh obj i
    cases hc : beh.closeErr with
    | some e => simp [handleDeletion, issueExists, CloseIssue, hc]
    | none =>
      cases hr : beh.removeUpdateErr with
      | some e => simp [handleDeletion, issueExists, CloseIssue, Cleanup, hc, hr]
      | none => simp [handleDeletion, issueExists, CloseIssue, Cleanup, hc, hr]

/-! ### C2 — finalizer removed only after a successful Close -/

/-- C2: in a deletion pass, if the remote Close fails the pass returns the
error, the object (in memory and in the store) keeps its finalizers, and the
finalizer Update is never invoked; conversely the finalizer Update appears in
the trace only when Close succeeded, and then strictly after the Close call;
and on full success the token is gone from the durable object. -/
theorem c2_finalizer_after_close :
    (∀ (beh : DeletionBehavior) (i : Issue) (obj : GithubIssue) (e : String),
      beh.closeErr = some e →
        (handleDeletion beh (some i) obj).2.2.1 =
            some ("failed closing issue: " ++ ("failed to close issue: " ++ e))
          ∧ (handleDeletion beh (some i) obj).1 = obj
          ∧ (handleDeletion beh (some i) obj).2.1 = obj
          ∧ RemoteEvent.finalizerUpdate ∉ (handleDeletion beh (some i) obj).2.2.2)
    ∧ (∀ (beh : DeletionBehavior) (issue : Option Issue) (obj : GithubIssue),
      RemoteEvent.finalizerUpdate ∈ (handleDeletion beh issue obj).2.2.2 →
        beh.closeErr = none ∧ ∃ i, issue = some i ∧
          (handleDeletion beh issue obj).2.2.2 =
            [RemoteEvent.closeCall i.number, RemoteEvent.finalizerUpdate])
    ∧ (∀ (beh : DeletionBehavior) (i : Issue) (obj : GithubIssue),
      beh.closeErr = none → beh.removeUpdateErr = none →
        closeIssueFinalizer ∉ ((handleDeletion beh (some i) obj).2.1).finalizers) := by
  refine ⟨?_, ?_, ?_⟩
  · intro beh i obj e hc
    simp [handleDeletion, issueExists, CloseIssue, hc]
  · intro beh issue obj hmem
    cases issue with
    | none => simp [handleDeletion, issueExists] at hmem
    | some i =>
      cases hc : beh.closeErr with
      | some e => simp [handleDeletion, issueExists, CloseIssue, hc] at hmem
      | none =>
        refine ⟨rfl, i, rfl, ?_⟩
        cases hr : beh.removeUpdateErr with
        | some e => simp [handleDeletion, issueExists, CloseIssue, Cleanup, hc, hr]
        | none => simp [handleDeletion, issueExists, CloseIssue, Cleanup, hc, hr]
  · intro beh i obj hc hr
    simp [handleDeletion, issueExists, CloseIssue, Cleanup, hc, hr,
      removeFinalizer, List.mem_filter]

/-- C2 witness: a failing Close on a concrete object keeps the token and
skips cleanup; the success case removes the token. -/
theorem c2_finalizer_after_close_witness :
    ((handleDeletion ⟨some "rate limited", none⟩ (some issue1) finalizedObj).2.2.1 =
        some "failed closing issue: failed to close issue: rate limited"
      ∧ (handleDeletion ⟨some "rate limited", none⟩ (some issue1) finalizedObj).1 =
          finalizedObj
      ∧ (handleDeletion ⟨some "rate limited", none⟩ (some issue1) finalizedObj).2.1 =
          finalizedObj
      ∧ RemoteEvent.finalizerUpdate ∉
          (handleDeletion ⟨some "rate limited", none⟩ (some issue1) finalizedObj).2.2.2)
    ∧ closeIssueFinalizer ∉
        ((handleDeletion ⟨none, none⟩ (some issue1) finalizedObj).2.1).finalizers :=
  ⟨c2_finalizer_after_close.1 ⟨some "rate limited", none⟩ issue1 finalizedObj
      "rate limited" rfl,
    c2_finalizer_after_close.2.2 ⟨none, none⟩ issue1 finalizedObj rfl rfl⟩

/-! ### C10 — no status change on a failed remote mutation -/

/-- C10: if the remote Create fails in the New state, or the remote Edit
fails in the Existing state, the handler returns the wrapped error
immediately and the object — including its status conditions — is exactly
the one it started with. -/
theorem c10_mutation_error_preserves_status :
    (∀ (beh : MutationBehavior) (obj : GithubIssue) (e : String),
      beh.createErr = some e →
        handleNewIssue beh obj = (obj, some ("failed to create issue: " ++ e)))
    ∧ (∀ (beh : MutationBehavior) (obj : GithubIssue) (i : Issue) (e : String),
      beh.editErr = some e →
        handleUpdatedIssue beh obj i =
          (obj, some ("failed to edit issue: " ++ e))) := by
  constructor
  · intro beh obj e hc
    simp [handleNewIssue, CreateIssue, hc]
  · intro beh obj i e hc
    simp [handleUpdatedIssue, EditIssue, hc]

/-- C10 witness: concrete failing Create and Edit leave the fresh object
untouched. -/
theorem c10_mutation_error_preserves_status_witness :
    handleNewIssue
        ⟨some "boom", none, fun _ => Except.ok [], ⟨false, false⟩⟩ emptyObj =
      (emptyObj, some "failed to create issue: boom")
    ∧ handleUpdatedIssue
        ⟨none, some "boom", fun _ => Except.ok [], ⟨false, false⟩⟩ emptyObj issue1 =
      (emptyObj, some "failed to edit issue: boom") :=
  ⟨c10_mutation_error_preserves_status.1
      ⟨some "boom", none, fun _ => Except.ok [], ⟨false, false⟩⟩ emptyObj "boom" rfl,
    c10_mutation_error_preserves_status.2
      ⟨none, some "boom", fun _ => Except.ok [], ⟨false, false⟩⟩ emptyObj issue1
      "boom" rfl⟩

/-! ### C8 — status-write fallback -/

/-- C8 counterexample: in the `updateIssueStatus` variant of
`internal/controller/repo.go` a failed status write is surfaced immediately:
on a fresh object with an open counterpart and a failing status write (and a
full-object write that would succeed), the pass fails with zero fallback
attempts, contradicting "exactly one fallback attempt ... is made". -/
theorem c8_fallback_counterexample :
    (updateIssueStatusRepo ⟨true, false⟩ emptyObj (some issue1)).2.1.fallbackCalls
        = 0
      ∧ (updateIssueStatusRepo ⟨true, false⟩ emptyObj (some issue1)).2.2 =
          some "failed to update status"
      ∧ (updateIssueStatusRepo ⟨true, false⟩ emptyObj
          (some issue1)).2.1.statusUpdateCalls = 1 := by
  decide

/-- C8 (amended): in the `UpdateIssueStatus` path
(`internal/controller/issues.go`) a failed status write triggers exactly one
fallback attempt via a full-object write: if the fallback succeeds the pass
returns no status-write error, and only if the fallback also fails is the
error surfaced; without a status-write failure no fallback is attempted. The
`updateIssueStatus` variant in `internal/controller/repo.go` never attempts a
fallback and surfaces the failure immediately. -/
theorem c8_status_write_fallback :
    (∀ (beh : StoreBehavior) (obj : GithubIssue) (gh : Option Issue),
      beh.statusUpdateFails = true →
        ((UpdateIssueStatus beh obj gh).2.1.statusUpdateCalls = 1 →
          (UpdateIssueStatus beh obj gh).2.1.fallbackCalls = 1)
        ∧ (beh.fullUpdateFails = false →
            (UpdateIssueStatus beh obj gh).2.2 = none)
        ∧ (beh.fullUpdateFails = true →
            (UpdateIssueStatus beh obj gh).2.1.statusUpdateCalls = 1 →
            (UpdateIssueStatus beh obj gh).2.2 = some "failed to update status"))
    ∧ (∀ (beh : StoreBehavior) (obj : GithubIssue) (gh : Option Issue),
      beh.statusUpdateFails = false →
        (UpdateIssueStatus beh obj gh).2.1.fallbackCalls = 0)
    ∧ (∀ (beh : StoreBehavior) (obj : GithubIssue) (pi : Option Issue),
      (updateIssueStatusRepo beh obj pi).2.1.fallbackCalls = 0) := by
  refine ⟨?_, ?_, ?_⟩
  · intro beh obj gh hs
    cases hf : beh.fullUpdateFails <;>
      simp [UpdateIssueStatus, hs, hf] <;> split <;> simp
  · intro beh obj gh hs
    simp [UpdateIssueStatus, hs] ; split <;> simp
  · intro beh obj pi
    simp only [updateIssueStatusRepo]
    split
    · split
      · split
        · split
          · rfl
          · rfl
        · rfl
      · rfl
    · rfl

/-- C8 witness: with a failing status write and a succeeding fallback on a
fresh object, the `UpdateIssueStatus` path makes exactly one fallback attempt
and returns no error. -/
theorem c8_status_write_fallback_witness :
    ((UpdateIssueStatus ⟨true, false⟩ emptyObj (some issue1)).2.1.statusUpdateCalls = 1 →
      (UpdateIssueStatus ⟨true, false⟩ emptyObj (some issue1)).2.1.fallbackCalls = 1)
    ∧ (UpdateIssueStatus ⟨true, false⟩ emptyObj (some issue1)).2.2 = none
    ∧ (updateIssueStatusRepo ⟨true, true⟩ emptyObj (some issue1)).2.1.fallbackCalls = 0 :=
  ⟨(c8_status_write_fallback.1 ⟨true, false⟩ emptyObj (some issue1) rfl).1,
    (c8_status_write_fallback.1 ⟨true, false⟩ emptyObj (some issue1) rfl).2.1 rfl,
    c8_status_write_fallback.2.2 ⟨true, true⟩ emptyObj (some issue1)⟩

/-! ### C4 — fetch with bounded exponential backoff -/

/-- C4: fetching calls List at most 5 times; if the k-th call is the first to
succeed it returns that result after delays 2^0 .. 2^(k-2); if all 5 calls
fail it returns the terminal error with no issue list after delays
[1, 2, 4, 8]; retries happen on every error, with the behaviour blind to
which errors occurred. -/
theorem c4_fetch_retry :
    (∀ client : Nat → Except String IssueList, (fetchAllIssues client).2.1 ≤ 5)
    ∧ (∀ (client : Nat → Except String IssueList) (k : Nat) (l : IssueList),
      1 ≤ k → k ≤ 5 → client k = Except.ok l →
      (∀ j, 1 ≤ j → j < k → ∃ e, client j = Except.error e) →
      fetchAllIssues client =
        (Except.ok l, k, (List.range (k - 1)).map (fun j => 2 ^ j)))
    ∧ (∀ client : Nat → Except String IssueList,
      (∀ j, 1 ≤ j → j ≤ 5 → ∃ e, client j = Except.error e) →
      fetchAllIssues client =
        (Except.error "exceeded retries fetching issues", 5, [1, 2, 4, 8]))
    ∧ (∀ client₁ client₂ : Nat → Except String IssueList,
      (∀ k, (client₁ k).toOption = (client₂ k).toOption) →
      fetchAllIssues client₁ = fetchAllIssues client₂) := by
  refine ⟨?_, ?_, ?_, ?_⟩
  · intro client
    have h : ∀ (fuel attempt : Nat), (fetchFrom client attempt fuel).2.1 ≤ fuel := by
      intro fuel
      induction fuel with
      | zero => intro attempt; simp [fetchFrom]
      | succ n ih =>
        intro attempt
        cases hc : client attempt with
        | ok l => simp [fetchFrom, hc]
        | error e =>
          by_cases hn : n = 0
          · simp [fetchFrom, hc, hn]
          · simpa [fetchFrom, hc, hn] using Nat.succ_le_succ (ih (attempt + 1))
    exact h 5 1
  · intro client k l h1 h5 hok herr
    interval_cases k
    · simp [fetchAllIssues, fetchFrom, hok]
    · obtain ⟨e1, he1⟩ := herr 1 (by omega) (by omega)
      simp [fetchAllIssues, fetchFrom, hok, he1]
      decide
    · obtain ⟨e1, he1⟩ := herr 1 (by omega) (by omega)
      obtain ⟨e2, he2⟩ := herr 2 (by omega) (by omega)
      simp [fetchAllIssues, fetchFrom, hok, he1, he2]
      decide
    · obtain ⟨e1, he1⟩ := herr 1 (by omega) (by omega)
      obtain ⟨e2, he2⟩ := herr 2 (by omega) (by omega)
      obtain ⟨e3, he3⟩ := herr 3 (by omega) (by omega)
      simp [fetchAllIssues, fetchFrom, hok, he1, he2, he3]
      decide
    · obtain ⟨e1, he1⟩ := herr 1 (by omega) (by omega)
      obtain ⟨e2, he2⟩ := herr 2 (by omega) (by omega)
      obtain ⟨e3, he3⟩ := herr 3 (by omega) (by omega)
      obtain ⟨e4, he4⟩ := herr 4 (by omega) (by omega)
      simp [fetchAllIssues, fetchFrom, hok, he1, he2, he3, he4]
      decide
  · intro client herr
    obtain ⟨e1, he1⟩ := herr 1 (by omega) (by omega)
    obtain ⟨e2, he2⟩ := herr 2 (by omega) (by omega)
    obtain ⟨e3, he3⟩ := herr 3 (by omega) (by omega)
    obtain ⟨e4, he4⟩ := herr 4 (by omega) (by omega)
    obtain ⟨e5, he5⟩ := herr 5 (by omega) (by omega)
    simp [fetchAllIssues, fetchFrom, he1, he2, he3, he4, he5]
  · intro client₁ client₂ hsame
    have h : ∀ (fuel attempt : Nat),
        fetchFrom client₁ attempt fuel = fetchFrom client₂ attempt fuel := by
      intro fuel
      induction fuel with
      | zero => intro attempt; simp [fetchFrom]
      | succ n ih =>
        intro attempt
        have hk := hsame attempt
        cases hc1 : client₁ attempt with
        | ok l =>
          cases hc2 : client₂ attempt with
          | ok l₂ =>
            have : l = l₂ := by
              simpa [hc1, hc2, Except.toOption] using hk
            subst this
            simp [fetchFrom, hc1, hc2]
          | error e₂ => simp [hc1, hc2, Except.toOption] at hk
        | error e =>
          cases hc2 : client₂ attempt with
          | ok l₂ => simp [hc1, hc2, Except.toOption] at hk
          | error e₂ => simp [fetchFrom, hc1, hc2, ih]
    exact h 5 1

/-- A List stub that fails twice with a rate-limit error and succeeds on the
third call. -/
def retryClient : Nat → Except String IssueList := fun k =>
  if k = 3 then Except.ok [some issue1] else Except.error "rate limited"

/-- A List stub that always fails. -/
def failingClient : Nat → Except String IssueList := fun _ =>
  Except.error "rate limited"

/-- C4 witness: the client succeeding on call 3 yields its list after delays
[1, 2]; the always-failing client exhausts all 5 attempts with delays
[1, 2, 4, 8]. -/
theorem c4_fetch_retry_witness :
    fetchAllIssues retryClient =
        (Except.ok [some issue1], 3, (List.range 2).map (fun j => 2 ^ j))
      ∧ fetchAllIssues failingClient =
          (Except.error "exceeded retries fetching issues", 5, [1, 2, 4, 8]) :=
  ⟨c4_fetch_retry.2.1 retryClient 3 [some issue1] (by omega) (by omega) rfl
      (fun j h1 h2 => ⟨"rate limited", by interval_cases j <;> rfl⟩),
    c4_fetch_retry.2.2.1 failingClient
      (fun j h1 h2 => ⟨"rate limited", rfl⟩)⟩

/-! ### C1 — status-only condition diff and reconcile idempotence -/

/-- The status value the condition diff engine computes for `IssueIsOpen`. -/
def openStatus (i : Issue) : ConditionStatus :=
  if i.state = "open" then ConditionTrue else ConditionFalse

/-- The status value the condition diff engine computes for `IssueHasPR`. -/
def prStatus (i : Issue) : ConditionStatus :=
  if i.hasPR then ConditionTrue else ConditionFalse

theorem checkForPR_establishes (i : Issue) (obj : GithubIssue) :
    IsStatusConditionPresentAndEqual
      ((CheckForPR (some i) obj).1).status.conditions
      "IssueHasPR" (prStatus i) = true := by
  cases hp : i.hasPR
  · have hps : prStatus i = ConditionFalse := by simp [prStatus, hp]
    rw [hps]
    by_cases hP : IsStatusConditionPresentAndEqual obj.status.conditions
        "IssueHasPR" ConditionFalse = true
    · simp [CheckForPR, hp, hP]
    · simpa [CheckForPR, hp, hP] using
        isPresent_set_self obj.status.conditions
          ⟨"IssueHasPR", ConditionFalse, "IssueHasNoPR", "Issue has no PR"⟩
  · have hps : prStatus i = ConditionTrue := by simp [prStatus, hp]
    rw [hps]
    by_cases hP : IsStatusConditionPresentAndEqual obj.status.conditions
        "IssueHasPR" ConditionTrue = true
    · simp [CheckForPR, hp, hP]
    · simpa [CheckForPR, hp, hP] using
        isPresent_set_self obj.status.conditions
          ⟨"IssueHasPR", ConditionTrue, "IssueHasPR", "Issue has an open PR"⟩

theorem checkIfOpen_establishes (i : Issue) (obj : GithubIssue) :
    IsStatusConditionPresentAndEqual
      ((CheckIfOpen (some i) obj).1).status.conditions
      "IssueIsOpen" (openStatus i) = true := by
  by_cases ho : i.state = "open"
  · have hos : openStatus i = ConditionTrue := by simp [openStatus, ho]
    rw [hos]
    by_cases hP : IsStatusConditionPresentAndEqual obj.status.conditions
        "IssueIsOpen" ConditionTrue = true
    · simp [CheckIfOpen, ho, hP]
    · simpa [CheckIfOpen, ho, hP] using
        isPresent_set_self obj.status.conditions
          ⟨"IssueIsOpen", ConditionTrue, "IssueIsOpen", "Issue is open"⟩
  · have hos : openStatus i = ConditionFalse := by simp [openStatus, ho]
    rw [hos]
    by_cases hP : IsStatusConditionPresentAndEqual obj.status.conditions
        "IssueIsOpen" ConditionFalse = true
    · simp [CheckIfOpen, ho, hP]
    · simpa [CheckIfOpen, ho, hP] using
        isPresent_set_self obj.status.conditions
          ⟨"IssueIsOpen", ConditionFalse, "IssueIs" ++ i.state,
            "Issue is " ++ i.state⟩

theorem checkForPR_noChange (i : Issue) (obj : GithubIssue)
    (h : IsStatusConditionPresentAndEqual obj.status.conditions
      "IssueHasPR" (prStatus i) = true) :
    CheckForPR (some i) obj = (obj, false) := by
  cases hp : i.hasPR
  · rw [show prStatus i = ConditionFalse from by simp [prStatus, hp]] at h
    simp [CheckForPR, hp, h]
  · rw [show prStatus i = ConditionTrue from by simp [prStatus, hp]] at h
    simp [CheckForPR, hp, h]

theorem checkIfOpen_noChange (i : Issue) (obj : GithubIssue)
    (h : IsStatusConditionPresentAndEqual obj.status.conditions
      "IssueIsOpen" (openStatus i) = true) :
    CheckIfOpen (some i) obj = (obj, false) := by
  by_cases ho : i.state = "open"
  · rw [show openStatus i = ConditionTrue from by simp [openStatus, ho]] at h
    simp [CheckIfOpen, ho, h]
  · rw [show openStatus i = ConditionFalse from by simp [openStatus, ho]] at h
    simp [CheckIfOpen, ho, h]

theorem checkIfOpen_preserves_pr (gh : Option Issue) (obj : GithubIssue)
    (s : ConditionStatus) :
    IsStatusConditionPresentAndEqual
        ((CheckIfOpen gh obj).1).status.conditions "IssueHasPR" s =
      IsStatusConditionPresentAndEqual obj.status.conditions "IssueHasPR" s := by
  cases gh with
  | none => rfl
  | some i =>
    by_cases ho : i.state = "open"
    · by_cases hP : IsStatusConditionPresentAndEqual obj.status.conditions
          "IssueIsOpen" ConditionTrue = true
      · simp [CheckIfOpen, ho, hP]
      · simpa [CheckIfOpen, ho, hP] using
          isPresent_set_other obj.status.conditions
            ⟨"IssueIsOpen", ConditionTrue, "IssueIsOpen", "Issue is open"⟩
            "IssueHasPR" s (by decide)
    · by_cases hP : IsStatusConditionPresentAndEqual obj.status.conditions
          "IssueIsOpen" ConditionFalse = true
      · simp [CheckIfOpen, ho, hP]
      · simpa [CheckIfOpen, ho, hP] using
          isPresent_set_other obj.status.conditions
            ⟨"IssueIsOpen", ConditionFalse, "IssueIs" ++ i.state,
              "Issue is " ++ i.state⟩
            "IssueHasPR" s (by simp)

theorem updateIssueStatus_obj (beh : StoreBehavior) (obj : GithubIssue)
    (gh : Option Issue) :
    (UpdateIssueStatus beh obj gh).1 =
      (CheckIfOpen gh (CheckForPR gh obj).1).1 := by
  simp only [UpdateIssueStatus]
  split
  · split
    · split
      · rfl
      · rfl
    · rfl
  · rfl

/-- C1: a condition is rewritten exactly when the stored condition of the
same type is missing or carries a different status; the status write happens
exactly when one of the two conditions changed; running the status update a
second time against the same remote issue performs zero writes; and on an
object that does not yet carry the conditions the first pass performs
exactly one write. -/
theorem c1_status_diff_idempotence :
    (∀ (obj : GithubIssue) (t : String) (s : ConditionStatus) (r m : String),
      (updateCondition obj t s r m).2 = true ↔
        ¬ ∃ c, obj.status.conditions.find? (fun x => decide (x.ctype = t)) =
            some c ∧ c.status = s)
    ∧ (∀ (beh : StoreBehavior) (obj : GithubIssue) (gh : Option Issue),
      (UpdateIssueStatus beh obj gh).2.1.statusUpdateCalls ≠ 0 ↔
        ((CheckForPR gh obj).2 = true ∨
          (CheckIfOpen gh (CheckForPR gh obj).1).2 = true))
    ∧ (∀ (beh beh₂ : StoreBehavior) (obj : GithubIssue) (gh : Option Issue),
      (UpdateIssueStatus beh₂ ((UpdateIssueStatus beh obj gh).1)
        gh).2.1.statusUpdateCalls = 0)
    ∧ (∀ (beh : StoreBehavior) (obj : GithubIssue) (i : Issue),
      obj.status.conditions.find? (fun x => decide (x.ctype = "IssueHasPR")) =
          none →
      (UpdateIssueStatus beh obj (some i)).2.1.statusUpdateCalls = 1) := by
  refine ⟨?_, ?_, ?_, ?_⟩
  · intro obj t s r m
    by_cases hP : IsStatusConditionPresentAndEqual obj.status.conditions t s = true
    · have hex := (isPresent_iff_find obj.status.conditions t s).mp hP
      simp [updateCondition, hP, hex]
    · have hnex : ¬ ∃ c,
          obj.status.conditions.find? (fun x => decide (x.ctype = t)) = some c ∧
            c.status = s :=
        fun hex => hP ((isPresent_iff_find obj.status.conditions t s).mpr hex)
      simp [updateCondition, hP, hnex]
  · intro beh obj gh
    have hcalls : (UpdateIssueStatus beh obj gh).2.1.statusUpdateCalls =
        if ((CheckForPR gh obj).2 ||
            (CheckIfOpen gh (CheckForPR gh obj).1).2) = true
        then 1 else 0 := by
      simp only [UpdateIssueStatus]
      split
      · split
        · split
          · simp_all
          · simp_all
        · simp_all
      · simp_all
    rw [hcalls]
    by_cases h : ((CheckForPR gh obj).2 ||
        (CheckIfOpen gh (CheckForPR gh obj).1).2) = true
    · rw [if_pos h]
      constructor
      · intro _
        exact (Bool.or_eq_true _ _).mp h
      · intro _
        decide
    · rw [if_neg h]
      constructor
      · intro h0
        exact absurd rfl h0
      · intro hab
        exact absurd ((Bool.or_eq_true _ _).mpr hab) h
  · intro beh beh₂ obj gh
    cases gh with
    | none => simp [UpdateIssueStatus, CheckForPR, CheckIfOpen]
    | some i =>
      rw [updateIssueStatus_obj]
      have hPR : IsStatusConditionPresentAndEqual
          ((CheckIfOpen (some i) (CheckForPR (some i) obj).1).1).status.conditions
          "IssueHasPR" (prStatus i) = true := by
        rw [checkIfOpen_preserves_pr]
        exact checkForPR_establishes i obj
      have hOpen : IsStatusConditionPresentAndEqual
          ((CheckIfOpen (some i) (CheckForPR (some i) obj).1).1).status.conditions
          "IssueIsOpen" (openStatus i) = true :=
        checkIfOpen_establishes i (CheckForPR (some i) obj).1
      have h1 := checkForPR_noChange i
        ((CheckIfOpen (some i) (CheckForPR (some i) obj).1).1) hPR
      have h2 := checkIfOpen_noChange i
        ((CheckIfOpen (some i) (CheckForPR (some i) obj).1).1) hOpen
      simp [UpdateIssueStatus, h1, h2]
  · intro beh obj i hfind
    have hP : ∀ s, ¬ (IsStatusConditionPresentAndEqual obj.status.conditions
        "IssueHasPR" s = true) := by
      intro s h
      rcases (isPresent_iff_find obj.status.conditions "IssueHasPR" s).mp h with
        ⟨c, hc, _⟩
      rw [hfind] at hc
      cases hc
    have hpr : (CheckForPR (some i) obj).2 = true := by
      cases hp : i.hasPR
      · simp [CheckForPR, hp, hP ConditionFalse]
      · simp [CheckForPR, hp, hP ConditionTrue]
    simp only [UpdateIssueStatus, hpr, Bool.true_or, if_pos]
    split
    · split
      · rfl
      · rfl
    · rfl

/-- C1 witness: on a fresh object and the open remote issue, the first status
update performs exactly one write, the second performs zero, and the
condition rewrite predicate fires on the empty collection. -/
theorem c1_status_diff_idempotence_witness :
    (UpdateIssueStatus ⟨false, false⟩ emptyObj (some issue1)).2.1.statusUpdateCalls = 1
    ∧ (UpdateIssueStatus ⟨false, false⟩
        ((UpdateIssueStatus ⟨false, false⟩ emptyObj (some issue1)).1)
        (some issue1)).2.1.statusUpdateCalls = 0
    ∧ (updateCondition emptyObj "IssueIsOpen" ConditionTrue "IssueIsOpen"
        "Issue is open").2 = true :=
  ⟨c1_status_diff_idempotence.2.2.2 ⟨false, false⟩ emptyObj issue1
      (by simp [emptyObj]),
    c1_status_diff_idempotence.2.2.1 ⟨false, false⟩ ⟨false, false⟩ emptyObj
      (some issue1),
    (c1_status_diff_idempotence.1 emptyObj "IssueIsOpen" ConditionTrue
      "IssueIsOpen" "Issue is open").mpr (by simp [emptyObj])⟩

end GithubIssueOperator
